import Mathlib

/-!
Verification of the streaming event-detection core of the ML traffic
analyzer (`src/ml_processor.py`).

The embedding below translates the three core classes —
`PedestrianAnalyzer`, `ArrivalDetector` and `TrafficAnalyzer` — into pure
Lean functions over explicit state.  Python dictionaries become functions
into `Option`, Python floats become rationals (`ℚ`), and the per-track
body of `process_video` (lines 182–200) becomes a step function
`TrafficAnalyzer.processTrackUpdate` that is folded over a list of
confirmed track updates.  Python's `round(x, 1)` (round-half-to-even) is
modelled by `pyRound1`.  For the malformed-bounding-box analysis the
relevant comparisons are additionally modelled over `Option ℚ`, where
`none` plays the role of an IEEE NaN (all comparisons false).
-/

/-- Track identifiers as assigned by the external tracker. -/
abbrev TrackId := ℕ

/-- An axis-aligned bounding box `(left, top, right, bottom)` in frame
pixel coordinates, the per-frame projection of `track.to_ltrb()`. -/
structure BBox where
  l : ℚ
  t : ℚ
  r : ℚ
  b : ℚ
  deriving DecidableEq

/-- `center_x = (bbox[0] + bbox[2]) / 2` as computed throughout the source. -/
def centerX (bbox : BBox) : ℚ := (bbox.l + bbox.r) / 2

/-- `center_y = (bbox[1] + bbox[3]) / 2` as computed in `PedestrianAnalyzer.update`. -/
def centerY (bbox : BBox) : ℚ := (bbox.t + bbox.b) / 2

/-- Python's round-half-to-even on a rational, yielding an integer. -/
def roundHalfEven (x : ℚ) : ℤ :=
  let f := ⌊x⌋
  let frac := x - f
  if frac < 1/2 then f
  else if frac > 1/2 then f + 1
  else if Even f then f else f + 1

/-- Python's `round(x, 1)`: round to one decimal place, ties to even. -/
def pyRound1 (x : ℚ) : ℚ := (roundHalfEven (x * 10) : ℚ) / 10

/-- The per-track data held in `PedestrianAnalyzer.pedestrians[track_id]`:
first-seen timestamp and the append-only list of center positions.
(The source also stores `first_bbox`, which no code path reads; it is
omitted.) -/
structure PedData where
  startTime : ℚ
  positions : List (ℚ × ℚ)
  deriving DecidableEq

/-- State of `PedestrianAnalyzer`: the dictionary `self.pedestrians`. -/
structure PedestrianAnalyzer where
  pedestrians : TrackId → Option PedData

/-- `np.var`: population variance, mean of squared deviations from the mean. -/
def npVar (xs : List ℚ) : ℚ :=
  let n : ℚ := xs.length
  let mean := xs.sum / n
  (xs.map (fun x => (x - mean) ^ 2)).sum / n

/-- `PedestrianAnalyzer.update` (ml_processor.py lines 23–35): create the
entry with `start_time = timestamp` on first observation, otherwise append
the center position. -/
def PedestrianAnalyzer.update (pa : PedestrianAnalyzer) (trackId : TrackId)
    (bbox : BBox) (timestamp : ℚ) : PedestrianAnalyzer :=
  match pa.pedestrians trackId with
  | none =>
      ⟨fun i => if i = trackId then
          some ⟨timestamp, [(centerX bbox, centerY bbox)]⟩
        else pa.pedestrians i⟩
  | some d =>
      ⟨fun i => if i = trackId then
          some ⟨d.startTime, d.positions ++ [(centerX bbox, centerY bbox)]⟩
        else pa.pedestrians i⟩

/-- The `movement_variance` computed inside `classify` (lines 45–50):
`np.var` of the x coordinates when more than one sample exists, else 0. -/
def movementVariance (d : PedData) : ℚ :=
  if d.positions.length > 1 then npVar (d.positions.map Prod.fst) else 0

/-- `PedestrianAnalyzer.classify` (lines 37–56): `"Crossers"` for unknown
tracks; otherwise `"Posers"` iff duration > 8.0 and movement variance < 100. -/
def PedestrianAnalyzer.classify (pa : PedestrianAnalyzer) (trackId : TrackId)
    (timestamp : ℚ) : String :=
  match pa.pedestrians trackId with
  | none => "Crossers"
  | some d =>
      let duration := timestamp - d.startTime
      if duration > 8 ∧ movementVariance d < 100 then "Posers" else "Crossers"

/-- State of `ArrivalDetector` (lines 65–71): the configured line, the set
`recorded_arrivals` and the dictionary `last_positions`. -/
structure ArrivalDetector where
  arrivalLine : ℚ
  recordedArrivals : TrackId → Bool
  lastPositions : TrackId → Option ℚ

/-- A fresh detector, as built by `ArrivalDetector.__init__` / `reset`. -/
def ArrivalDetector.init (arrivalLineY : ℚ) : ArrivalDetector :=
  ⟨arrivalLineY, fun _ => false, fun _ => none⟩

/-- `ArrivalDetector.check_arrival` (lines 73–95).  Returns the pair
`(crossed, timestamp-or-None)` together with the mutated detector:
already-recorded tracks return `(False, None)` untouched; a known previous
bottom with `prev_y < line ≤ bottom_y` fires and marks the track recorded
(without updating the stored position); every other call stores the
current bottom edge and returns `(False, None)`. -/
def ArrivalDetector.checkArrival (d : ArrivalDetector) (trackId : TrackId)
    (bbox : BBox) (timestamp : ℚ) : (Bool × Option ℚ) × ArrivalDetector :=
  let bottomY := bbox.b
  if d.recordedArrivals trackId then ((false, none), d)
  else
    match d.lastPositions trackId with
    | some prevY =>
        if prevY < d.arrivalLine ∧ d.arrivalLine ≤ bottomY then
          ((true, some timestamp),
            ⟨d.arrivalLine,
             fun i => if i = trackId then true else d.recordedArrivals i,
             d.lastPositions⟩)
        else
          ((false, none),
            ⟨d.arrivalLine, d.recordedArrivals,
             fun i => if i = trackId then some bottomY else d.lastPositions i⟩)
    | none =>
        ((false, none),
          ⟨d.arrivalLine, d.recordedArrivals,
           fun i => if i = trackId then some bottomY else d.lastPositions i⟩)

/-- One row of the output log, as assembled in `record_arrival`
(lines 260–270).  `time` and `interArrivalStored` are the rounded values
placed in the `Time (s)` / `Inter-Arrival (s)` columns; `timeRaw` and
`interArrival` keep the unrounded intermediates (`timestamp` and
`inter_arrival`) from which the source computes them. -/
structure ArrivalData where
  id : ℕ
  timeRaw : ℚ
  time : ℚ
  entity : String
  typeDir : String
  interArrival : ℚ
  interArrivalStored : ℚ
  serviceTime : String
  deriving DecidableEq

/-- The core mutable state of `TrafficAnalyzer` (lines 106–144): the
output list `self.arrivals`, the per-category table
`self.last_arrival_times`, the vehicle-direction dictionary
`self.prev_positions`, the pedestrian analyzer and the arrival detector,
plus the configuration value `frame_width`. -/
structure TrafficAnalyzer where
  frameWidth : ℚ
  arrivals : List ArrivalData
  lastArrivalTimes : String → Option ℚ
  prevPositions : TrackId → Option ℚ
  pedestrianAnalyzer : PedestrianAnalyzer
  arrivalDetector : ArrivalDetector

/-- A freshly constructed analyzer: empty log, all four category entries
`None`, empty dictionaries, fresh detector at the configured line. -/
def TrafficAnalyzer.init (frameWidth arrivalLineY : ℚ) : TrafficAnalyzer :=
  ⟨frameWidth, [], fun _ => none, fun _ => none, ⟨fun _ => none⟩,
   ArrivalDetector.init arrivalLineY⟩

/-- `TrafficAnalyzer.classify_vehicle_direction` (lines 272–285): EB iff
moving right of the previous center, position heuristic on first sight;
always stores the current center as the new previous position. -/
def TrafficAnalyzer.classifyVehicleDirection (ta : TrafficAnalyzer)
    (trackId : TrackId) (bbox : BBox) : String × TrafficAnalyzer :=
  let cx := centerX bbox
  let direction :=
    match ta.prevPositions trackId with
    | some prevX => if cx > prevX then "EB" else "WB"
    | none => if cx > ta.frameWidth / 2 then "EB" else "WB"
  (direction,
   { ta with prevPositions := fun i => if i = trackId then some cx else ta.prevPositions i })

/-- The tail of `record_arrival` common to vehicles and pedestrians
(lines 251–270): look up the category's last arrival time, compute
`inter_arrival` (0.0 when absent), update the table, and append the row
with `ID = len(arrivals) + 1` and both timestamps rounded to one decimal. -/
def TrafficAnalyzer.recordCommon (ta : TrafficAnalyzer)
    (entityType typeDir serviceTime : String) (timestamp : ℚ) : TrafficAnalyzer :=
  let interArrival :=
    match ta.lastArrivalTimes entityType with
    | some lastTime => timestamp - lastTime
    | none => 0
  let arrivalData : ArrivalData :=
    ⟨ta.arrivals.length + 1, timestamp, pyRound1 timestamp, entityType, typeDir,
     interArrival, pyRound1 interArrival, serviceTime⟩
  { ta with
    lastArrivalTimes := fun c => if c = entityType then some timestamp else ta.lastArrivalTimes c,
    arrivals := ta.arrivals ++ [arrivalData] }

/-- `TrafficAnalyzer.record_arrival` (lines 231–270): vehicles
(classes 2, 3, 5, 7) get a direction classification, pedestrians
(class 0) a behavior classification with `type_dir = behavior[:-1]`, and
any other class is discarded with no record created. -/
def TrafficAnalyzer.recordArrival (ta : TrafficAnalyzer) (trackId : TrackId)
    (classId : ℕ) (bbox : BBox) (timestamp : ℚ) : TrafficAnalyzer :=
  if classId = 2 ∨ classId = 3 ∨ classId = 5 ∨ classId = 7 then
    let res := ta.classifyVehicleDirection trackId bbox
    res.2.recordCommon (res.1 ++ " Vehicles") res.1 "-" timestamp
  else if classId = 0 then
    let behavior := ta.pedestrianAnalyzer.classify trackId timestamp
    ta.recordCommon behavior (behavior.dropRight 1) "-" timestamp
  else
    ta

/-- One confirmed track update as handed to the per-track loop of
`process_video`: identifier, detected class, bounding box, timestamp. -/
structure TrackEvent where
  trackId : TrackId
  classId : ℕ
  bbox : BBox
  timestamp : ℚ
  deriving DecidableEq

/-- The per-track body of `process_video` (lines 182–200): update the
pedestrian analyzer for persons, run the crossing detector, and on a fired
crossing call `record_arrival` with the returned arrival time. -/
def TrafficAnalyzer.processTrackUpdate (ta : TrafficAnalyzer) (e : TrackEvent) :
    TrafficAnalyzer :=
  let ta1 :=
    if e.classId = 0 then
      { ta with pedestrianAnalyzer := ta.pedestrianAnalyzer.update e.trackId e.bbox e.timestamp }
    else ta
  let res := ta1.arrivalDetector.checkArrival e.trackId e.bbox e.timestamp
  let ta2 := { ta1 with arrivalDetector := res.2 }
  match res.1 with
  | (true, some arrivalTime) => ta2.recordArrival e.trackId e.classId e.bbox arrivalTime
  | _ => ta2

/-- Folding the per-track body over a whole run's confirmed track updates. -/
def TrafficAnalyzer.processEvents (ta : TrafficAnalyzer) (es : List TrackEvent) :
    TrafficAnalyzer :=
  es.foldl TrafficAnalyzer.processTrackUpdate ta

/-- Driving the bare detector over a list of `(track, bbox, timestamp)`
calls, collecting each call's `(crossed, timestamp-or-None)` result tagged
with its track. -/
def runDetector (d : ArrivalDetector) : List (TrackId × BBox × ℚ) →
    ArrivalDetector × List (TrackId × Bool × Option ℚ)
  | [] => (d, [])
  | (tid, bbox, ts) :: rest =>
      let res := d.checkArrival tid bbox ts
      let tail := runDetector res.2 rest
      (tail.1, (tid, res.1.1, res.1.2) :: tail.2)

/-- The timestamp of the most recent record of category `c` in a log. -/
def lastTimeOfCat (l : List ArrivalData) (c : String) : Option ℚ :=
  ((l.filter (fun r => r.entity = c)).getLast?).map ArrivalData.timeRaw

/-- The inter-arrival value the data model prescribes for a record `r`
appended after the log prefix `pre`: elapsed time since the previous
record of the same category, `0.0` for the first of its category. -/
def expectedInter (pre : List ArrivalData) (r : ArrivalData) : ℚ :=
  match lastTimeOfCat pre r.entity with
  | some t => r.timeRaw - t
  | none => 0

/-- A Python float value that may be NaN; `none` models an IEEE NaN. -/
abbrev PyF := Option ℚ

/-- Python `<` on possibly-NaN floats: any comparison with NaN is false. -/
def pyLt : PyF → PyF → Bool
  | some x, some y => decide (x < y)
  | _, _ => false

/-- Python `<=` on possibly-NaN floats: any comparison with NaN is false. -/
def pyLe : PyF → PyF → Bool
  | some x, some y => decide (x ≤ y)
  | _, _ => false

/-- A bounding box whose coordinates may be NaN, as delivered by a
misbehaving upstream tracker. -/
structure BBoxF where
  l : PyF
  t : PyF
  r : PyF
  b : PyF
  deriving DecidableEq

/-- `true` iff every coordinate of the box is finite (non-NaN). -/
def BBoxF.isFinite (bbox : BBoxF) : Bool :=
  bbox.l.isSome && bbox.t.isSome && bbox.r.isSome && bbox.b.isSome

/-- `ArrivalDetector` state over possibly-NaN stored positions. -/
structure ArrivalDetectorF where
  arrivalLine : ℚ
  recordedArrivals : TrackId → Bool
  lastPositions : TrackId → Option PyF

/-- A fresh NaN-aware detector. -/
def ArrivalDetectorF.init (arrivalLineY : ℚ) : ArrivalDetectorF :=
  ⟨arrivalLineY, fun _ => false, fun _ => none⟩

/-- `ArrivalDetector.check_arrival` executed on Python floats that may be
NaN: the source has no guard, so the chained comparison
`prev_y < arrival_line <= bottom_y` simply evaluates to false whenever
either operand is NaN, and a NaN `bottom_y` is stored into
`last_positions` like any other value. -/
def ArrivalDetectorF.checkArrival (d : ArrivalDetectorF) (trackId : TrackId)
    (bbox : BBoxF) (timestamp : ℚ) : (Bool × Option ℚ) × ArrivalDetectorF :=
  let bottomY := bbox.b
  if d.recordedArrivals trackId then ((false, none), d)
  else
    match d.lastPositions trackId with
    | some prevY =>
        if pyLt prevY (some d.arrivalLine) && pyLe (some d.arrivalLine) bottomY then
          ((true, some timestamp),
            ⟨d.arrivalLine,
             fun i => if i = trackId then true else d.recordedArrivals i,
             d.lastPositions⟩)
        else
          ((false, none),
            ⟨d.arrivalLine, d.recordedArrivals,
             fun i => if i = trackId then some bottomY else d.lastPositions i⟩)
    | none =>
        ((false, none),
          ⟨d.arrivalLine, d.recordedArrivals,
           fun i => if i = trackId then some bottomY else d.lastPositions i⟩)

/-- Driving the NaN-aware detector over a list of calls, exactly as the
per-track loop of `process_video` does (no malformed-input guard). -/
def runDetectorF (d : ArrivalDetectorF) : List (TrackId × BBoxF × ℚ) →
    ArrivalDetectorF × List (TrackId × Bool × Option ℚ)
  | [] => (d, [])
  | (tid, bbox, ts) :: rest =>
      let res := d.checkArrival tid bbox ts
      let tail := runDetectorF res.2 rest
      (tail.1, (tid, res.1.1, res.1.2) :: tail.2)

/-- Modelled from the spec: the malformed-bounding-box handling required by
§4.5 and §7 ("a malformed bounding box (e.g., NaN coordinates from the
upstream tracker) should cause the single-track update to be skipped and
logged"; "skip this track's update for this frame only") is absent from
`src/ml_processor.py`.  This run skips any update whose bounding box has a
non-finite coordinate: the detector state is left untouched and no arrival
is emitted for that event, exactly as the spec prescribes. -/
def runDetectorSkip (d : ArrivalDetectorF) : List (TrackId × BBoxF × ℚ) →
    ArrivalDetectorF × List (TrackId × Bool × Option ℚ)
  | [] => (d, [])
  | (tid, bbox, ts) :: rest =>
      if bbox.isFinite then
        let res := d.checkArrival tid bbox ts
        let tail := runDetectorSkip res.2 rest
        (tail.1, (tid, res.1.1, res.1.2) :: tail.2)
      else
        let tail := runDetectorSkip d rest
        (tail.1, (tid, false, none) :: tail.2)

/-- Number of fired crossings in a detector output list. -/
def countFired (outs : List (TrackId × Bool × Option ℚ)) : ℕ :=
  (outs.filter (fun o => o.2.1)).length

/-- A NaN-capable box with the given bottom edge (other coordinates 0). -/
def bbF (bottom : PyF) : BBoxF := ⟨some 0, some 0, some 0, bottom⟩

/-- Track 1 approaches the line at y = 400 (bottom 390), delivers one
NaN bounding box, then reappears below the line (bottom 420): with
correct per-frame skipping the 390 → 420 transition is a crossing. -/
def esNaN : List (TrackId × BBoxF × ℚ) :=
  [(1, bbF (some 390), 1), (1, bbF none, 2), (1, bbF (some 420), 3)]

/-- A finite-coordinate box with the given bottom edge and the given
horizontal center (width 100, other coordinates fixed). -/
def bbAt (cx bottom : ℚ) : BBox := ⟨cx - 50, 300, cx + 50, bottom⟩

/-- Spec §8 inter-arrival scenario: an EB vehicle arrives at t = 10, a WB
vehicle at t = 12, a second EB vehicle at t = 15.5 (each track is seen
once above the line, then once below it). -/
def esC3 : List TrackEvent :=
  [⟨1, 2, bbAt 700 390, 9⟩, ⟨1, 2, bbAt 700 420, 10⟩,
   ⟨2, 2, bbAt 500 390, 11⟩, ⟨2, 2, bbAt 500 420, 12⟩,
   ⟨3, 2, bbAt 700 390, 15⟩, ⟨3, 2, bbAt 700 420, (31 : ℚ)/2⟩]

/-- The first record produced by `esC3`. -/
def r1C3 : ArrivalData := ⟨1, 10, 10, "EB Vehicles", "EB", 0, 0, "-"⟩

/-- The second record produced by `esC3`. -/
def r2C3 : ArrivalData := ⟨2, 12, 12, "WB Vehicles", "WB", 0, 0, "-"⟩

/-- The third record produced by `esC3`. -/
def r3C3 : ArrivalData :=
  ⟨3, (31 : ℚ)/2, (31 : ℚ)/2, "EB Vehicles", "EB", (11 : ℚ)/2, (11 : ℚ)/2, "-"⟩

/-- Rounding scenario: two EB vehicles cross at t = 0.25 and t = 0.75;
`round(0.25, 1) = 0.2` and `round(0.75, 1) = 0.8` under Python's ties-to-
even rounding, while the inter-arrival 0.5 rounds to 0.5. -/
def esC10 : List TrackEvent :=
  [⟨1, 2, bbAt 700 390, (1 : ℚ)/10⟩, ⟨1, 2, bbAt 700 420, (1 : ℚ)/4⟩,
   ⟨2, 2, bbAt 700 390, (3 : ℚ)/5⟩, ⟨2, 2, bbAt 700 420, (3 : ℚ)/4⟩]

/-- The first record produced by `esC10`. -/
def r1C10 : ArrivalData :=
  ⟨1, (1 : ℚ)/4, (1 : ℚ)/5, "EB Vehicles", "EB", 0, 0, "-"⟩

/-- The second record produced by `esC10`. -/
def r2C10 : ArrivalData :=
  ⟨2, (3 : ℚ)/4, (4 : ℚ)/5, "EB Vehicles", "EB", (1 : ℚ)/2, (1 : ℚ)/2, "-"⟩

/-- A detector that has one track on record (track 1 last seen with
bottom edge 390) and nothing recorded yet. -/
def dTracked : ArrivalDetector :=
  ⟨400, fun _ => false, fun i => if i = 1 then some 390 else none⟩

/-- A pedestrian history starting at t = 0 with four samples whose
horizontal centers 4, 16, 2, 18 have variance exactly 50. -/
def pd50 : PedData := ⟨0, [(4, 0), (16, 0), (2, 0), (18, 0)]⟩

/-- A pedestrian history starting at t = 0 with two samples whose
horizontal centers 0 and 20 have variance exactly 100. -/
def pd100 : PedData := ⟨0, [(0, 0), (20, 0)]⟩

/-- A pedestrian analyzer holding `pd50` for track 1. -/
def paVar50 : PedestrianAnalyzer := ⟨fun i => if i = 1 then some pd50 else none⟩

/-- A pedestrian analyzer holding `pd100` for track 1. -/
def paVar100 : PedestrianAnalyzer := ⟨fun i => if i = 1 then some pd100 else none⟩

/-- The spec's §8 at-most-once sequence: track 1's bottom edge descends
350, 390, 420, 450 past the line at y = 400. -/
def esC1 : List (TrackId × BBox × ℚ) :=
  [(1, bbAt 700 350, 1), (1, bbAt 700 390, 2),
   (1, bbAt 700 420, 3), (1, bbAt 700 450, 4)]

/-- An intermediate event after the discarded crossing of `evC9`. -/
def esMid : List TrackEvent := [⟨1, 2, bbAt 700 460, 6⟩]

/-- A later vehicle-class event for the same track as `evC9`. -/
def evLater : TrackEvent := ⟨1, 2, bbAt 700 500, 7⟩

/-- An analyzer mid-run: frame width 1280, line at 400, vehicle track 7
has previous center 300 on record. -/
def taPrev300 : TrafficAnalyzer :=
  ⟨1280, [], fun _ => none, fun i => if i = 7 then some 300 else none,
   ⟨fun _ => none⟩, ArrivalDetector.init 400⟩

/-- An analyzer state whose crossing detector is about to fire for
track 1 (class of the upcoming event is not a known class). -/
def taC9 : TrafficAnalyzer :=
  ⟨1280, [], fun _ => none, fun _ => none, ⟨fun _ => none⟩, dTracked⟩

/-- The event that fires for track 1 with an unknown detection class 9. -/
def evC9 : TrackEvent := ⟨1, 9, bbAt 700 420, 5⟩

/-- The per-record obligations of the output log: walking the log left to
right with the already-emitted prefix at hand, every record carries the
next sequence id, the prescribed inter-arrival for its category, and the
rounded copies of its own unrounded fields. -/
def logOk (pre : List ArrivalData) : List ArrivalData → Prop
  | [] => True
  | r :: rest =>
      (r.id = pre.length + 1 ∧
       r.interArrival = expectedInter pre r ∧
       r.interArrivalStored = pyRound1 r.interArrival ∧
       r.time = pyRound1 r.timeRaw) ∧
      logOk (pre ++ [r]) rest

/-- The run invariant of `TrafficAnalyzer`: the log satisfies its
per-record obligations and the per-category table agrees with the log. -/
def RunInv (ta : TrafficAnalyzer) : Prop :=
  logOk [] ta.arrivals ∧ ∀ c, ta.lastArrivalTimes c = lastTimeOfCat ta.arrivals c

/-- A track already in `recorded_arrivals` gets `(False, None)` and the
detector is untouched. -/
theorem checkArrival_of_recorded (d : ArrivalDetector) (tid : TrackId) (bbox : BBox)
    (ts : ℚ) (h : d.recordedArrivals tid = true) :
    d.checkArrival tid bbox ts = ((false, none), d) := by
  simp [ArrivalDetector.checkArrival, h]

/-- `check_arrival` never removes a track from `recorded_arrivals`. -/
theorem checkArrival_recorded_mono (d : ArrivalDetector) (tid j : TrackId) (bbox : BBox)
    (ts : ℚ) (h : d.recordedArrivals j = true) :
    (d.checkArrival tid bbox ts).2.recordedArrivals j = true := by
  unfold ArrivalDetector.checkArrival
  dsimp only
  split
  · exact h
  · split
    · split
      · dsimp only
        by_cases hj : j = tid <;> simp [hj, h]
      · exact h
    · exact h

/-- A fired `check_arrival` call fired from the crossing branch: the
track was unrecorded, a previous bottom was on record and it straddled
the line from above. -/
theorem checkArrival_fired_inv (d : ArrivalDetector) (tid : TrackId) (bbox : BBox)
    (ts : ℚ) (h : (d.checkArrival tid bbox ts).1.1 = true) :
    d.recordedArrivals tid = false ∧
    ∃ prevY, d.lastPositions tid = some prevY ∧
      prevY < d.arrivalLine ∧ d.arrivalLine ≤ bbox.b := by
  by_cases hrec : d.recordedArrivals tid = true
  · rw [checkArrival_of_recorded d tid bbox ts hrec] at h
    exact absurd h (by simp)
  · rcases hlast : d.lastPositions tid with _ | prevY
    · simp [ArrivalDetector.checkArrival, hrec, hlast] at h
    · by_cases hcond : prevY < d.arrivalLine ∧ d.arrivalLine ≤ bbox.b
      · exact ⟨by simpa using hrec, prevY, rfl, hcond⟩
      · simp [ArrivalDetector.checkArrival, hrec, hlast, hcond] at h

/-- A fired `check_arrival` call returns exactly `(True, timestamp)`. -/
theorem checkArrival_fired_pair (d : ArrivalDetector) (tid : TrackId) (bbox : BBox)
    (ts : ℚ) (h : (d.checkArrival tid bbox ts).1.1 = true) :
    (d.checkArrival tid bbox ts).1 = (true, some ts) := by
  obtain ⟨hrec, prevY, hlast, hcond⟩ := checkArrival_fired_inv d tid bbox ts h
  simp [ArrivalDetector.checkArrival, hrec, hlast, hcond]

/-- A fired `check_arrival` call marks the track recorded. -/
theorem checkArrival_fired_recorded (d : ArrivalDetector) (tid : TrackId) (bbox : BBox)
    (ts : ℚ) (h : (d.checkArrival tid bbox ts).1.1 = true) :
    (d.checkArrival tid bbox ts).2.recordedArrivals tid = true := by
  obtain ⟨hrec, prevY, hlast, hcond⟩ := checkArrival_fired_inv d tid bbox ts h
  simp [ArrivalDetector.checkArrival, hrec, hlast, hcond]

/-- Once a track is recorded, every later detector call for it in a run
outputs `(False, None)`. -/
theorem runDetector_recorded_silent (es : List (TrackId × BBox × ℚ)) :
    ∀ d : ArrivalDetector, ∀ tid : TrackId, d.recordedArrivals tid = true →
    ∀ o ∈ (runDetector d es).2, o.1 = tid → o.2 = (false, none) := by
  induction es with
  | nil => intro d tid _ o ho; simp [runDetector] at ho
  | cons e rest ih =>
      intro d tid hrec o ho htid
      obtain ⟨etid, ebox, ets⟩ := e
      simp only [runDetector, List.mem_cons] at ho
      rcases ho with ho | ho
      · subst ho
        dsimp only at htid ⊢
        rw [htid, checkArrival_of_recorded d tid ebox ets hrec]
      · exact ih _ tid (checkArrival_recorded_mono d etid tid ebox ets hrec) o ho htid

/-- C1: for every track_id and every sequence of `check_arrival` calls in
a single run (no reset), `check_arrival` returns fired = true at most once
per track_id: once some call in the run's output stream fires for a track,
every later output for the same track is `(False, None)`. -/
theorem detector_fires_at_most_once (es : List (TrackId × BBox × ℚ)) :
    ∀ (d : ArrivalDetector) (tid : TrackId) (x : Option ℚ)
      (pre post : List (TrackId × Bool × Option ℚ)),
    (runDetector d es).2 = pre ++ (tid, true, x) :: post →
    ∀ o ∈ post, o.1 = tid → o.2 = (false, none) := by
  induction es with
  | nil =>
      intro d tid x pre post h o ho
      exact absurd h (by simp [runDetector])
  | cons e rest ih =>
      intro d tid x pre post h o ho htid
      obtain ⟨etid, ebox, ets⟩ := e
      simp only [runDetector] at h
      cases pre with
      | nil =>
          simp only [List.nil_append, List.cons.injEq, Prod.mk.injEq] at h
          obtain ⟨⟨h1, h2, h3⟩, h4⟩ := h
          subst h1
          have hrec : ((d.checkArrival etid ebox ets).2).recordedArrivals etid = true :=
            checkArrival_fired_recorded d etid ebox ets h2
          exact runDetector_recorded_silent rest _ etid hrec o (h4 ▸ ho) htid
      | cons p pre2 =>
          simp only [List.cons_append, List.cons.injEq] at h
          exact ih _ tid x pre2 post h.2 o ho htid

/-- Witness for C1: running a fresh detector with line y = 400 over the
bottom-edge sequence 350, 390, 420, 450 of track 1 fires exactly at the
third call, and the call after the firing returns `(False, None)`. -/
theorem detector_fires_at_most_once_witness :
    (runDetector (ArrivalDetector.init 400) esC1).2 =
      [(1, false, none), (1, false, none), (1, true, some 3), (1, false, none)] ∧
    ((1 : TrackId), false, (none : Option ℚ)).2 = (false, none) := by
  have hrun : (runDetector (ArrivalDetector.init 400) esC1).2 =
      [(1, false, none), (1, false, none), (1, true, some 3), (1, false, none)] := by
    with_unfolding_all rfl
  refine ⟨hrun, ?_⟩
  exact detector_fires_at_most_once esC1 (ArrivalDetector.init 400) 1 (some 3)
    [(1, false, none), (1, false, none)] [(1, false, none)]
    (by rw [hrun]; rfl) (1, false, none) (by simp) rfl

/-- C2: for a track not yet recorded, `check_arrival` fires exactly when a
previous bottom-y is on record and `prev_y < line_y ≤ bbox.bottom`; hence
it never fires on a first observation, a bottom-to-top crossing, or two
samples on the same side of the line. -/
theorem checkArrival_fires_iff (d : ArrivalDetector) (tid : TrackId) (bbox : BBox)
    (ts : ℚ) (h : d.recordedArrivals tid = false) :
    (d.checkArrival tid bbox ts).1.1 = true ↔
      ∃ prevY, d.lastPositions tid = some prevY ∧
        prevY < d.arrivalLine ∧ d.arrivalLine ≤ bbox.b := by
  constructor
  · intro hf
    exact (checkArrival_fired_inv d tid bbox ts hf).2
  · rintro ⟨prevY, hlast, hcond⟩
    simp [ArrivalDetector.checkArrival, h, hlast, hcond]

/-- Witness for C2: a detector holding previous bottom 390 for track 1
(line y = 400) fires when the track reappears with bottom edge 420. -/
theorem checkArrival_fires_iff_witness :
    dTracked.recordedArrivals 1 = false ∧
    (dTracked.checkArrival 1 (bbAt 700 420) 5).1.1 = true :=
  ⟨rfl,
   (checkArrival_fires_iff dTracked 1 (bbAt 700 420) 5 rfl).mpr
     ⟨390, rfl, by norm_num [dTracked], by norm_num [dTracked, bbAt]⟩⟩

/-- C4: for a pedestrian with recorded history, `classify` answers
`"Posers"` iff duration is strictly greater than 8.0 and the movement
variance (0 for fewer than two samples) is strictly below 100.0; at the
boundaries — duration exactly 8.0 with variance 50, and duration 9.0 with
variance exactly 100.0 — it answers `"Crossers"`. -/
theorem classify_poser_iff :
    (∀ (pa : PedestrianAnalyzer) (tid : TrackId) (now : ℚ) (d : PedData),
        pa.pedestrians tid = some d →
        (pa.classify tid now = "Posers" ↔
          now - d.startTime > 8 ∧ movementVariance d < 100)) ∧
    paVar50.classify 1 8 = "Crossers" ∧
    paVar100.classify 1 9 = "Crossers" := by
  refine ⟨?_, by with_unfolding_all rfl, by with_unfolding_all rfl⟩
  intro pa tid now d h
  simp only [PedestrianAnalyzer.classify, h]
  split
  · next hc => simp [hc]
  · next hc => simp only [hc, iff_false, show "Crossers" ≠ "Posers" from by decide]

/-- Witness for C4: track 1 of `paVar50` (history start 0, variance 50)
is classified `"Posers"` at t = 9 since 9 − 0 > 8 and 50 < 100. -/
theorem classify_poser_iff_witness : paVar50.classify 1 9 = "Posers" :=
  (classify_poser_iff.1 paVar50 1 9 pd50 rfl).mpr
    ⟨by norm_num [pd50], by with_unfolding_all decide⟩

/-- C8: a track with no recorded history is classified `"Crossers"` at
every timestamp, without failing. -/
theorem classify_unknown_track (pa : PedestrianAnalyzer) (tid : TrackId) (now : ℚ)
    (h : pa.pedestrians tid = none) : pa.classify tid now = "Crossers" := by
  simp only [PedestrianAnalyzer.classify, h]

/-- Witness for C8: a fresh analyzer classifies the never-seen track 42 as
`"Crossers"` at t = 100. -/
theorem classify_unknown_track_witness :
    PedestrianAnalyzer.classify ⟨fun _ => none⟩ 42 100 = "Crossers" :=
  classify_unknown_track ⟨fun _ => none⟩ 42 100 rfl

/-- C6: `classify_vehicle_direction` answers EB when the current center is
strictly right of the recorded previous center and WB otherwise; with no
previous record it answers by the frame-half heuristic; in every case it
stores the current center as the track's new previous position. -/
theorem classifyVehicleDirection_spec (ta : TrafficAnalyzer) (tid : TrackId)
    (bbox : BBox) :
    (∀ prevX, ta.prevPositions tid = some prevX →
        (ta.classifyVehicleDirection tid bbox).1 =
          if centerX bbox > prevX then "EB" else "WB") ∧
    (ta.prevPositions tid = none →
        (ta.classifyVehicleDirection tid bbox).1 =
          if centerX bbox > ta.frameWidth / 2 then "EB" else "WB") ∧
    ((ta.classifyVehicleDirection tid bbox).2).prevPositions tid =
      some (centerX bbox) := by
  refine ⟨?_, ?_, ?_⟩
  · intro prevX h
    simp only [TrafficAnalyzer.classifyVehicleDirection, h]
  · intro h
    simp only [TrafficAnalyzer.classifyVehicleDirection, h]
  · simp [TrafficAnalyzer.classifyVehicleDirection]

/-- Witness for C6: with previous center 300 on record for track 7, a box
centered at 350 is classified EB, and 350 is stored as the new previous
position. -/
theorem classifyVehicleDirection_spec_witness :
    (taPrev300.classifyVehicleDirection 7 (bbAt 350 380)).1 = "EB" ∧
    ((taPrev300.classifyVehicleDirection 7 (bbAt 350 380)).2).prevPositions 7 =
      some 350 := by
  constructor
  · have h := (classifyVehicleDirection_spec taPrev300 7 (bbAt 350 380)).1 300 rfl
    rw [h]
    norm_num [centerX, bbAt]
  · have h := (classifyVehicleDirection_spec taPrev300 7 (bbAt 350 380)).2.2
    rw [h]
    norm_num [centerX, bbAt]

/-- C7: the claim says a malformed (NaN) bounding box causes the single
per-track update to be skipped for that frame only.  The code has no such
handling: on the bottom-edge sequence 390, NaN, 420 with the line at 400,
the source's `check_arrival` stores the NaN as the track's last position
(the update is not skipped) and, with the real 390 → 420 crossing now
masked, never fires; the spec-modelled per-frame skip fires exactly once.
The run does continue without raising, and no arrival is emitted for the
NaN event itself. -/
theorem nan_bbox_update_not_skipped :
    countFired (runDetectorF (ArrivalDetectorF.init 400) esNaN).2 = 0 ∧
    (runDetectorF (ArrivalDetectorF.init 400) (esNaN.take 2)).1.lastPositions 1 =
      some none ∧
    countFired (runDetectorSkip (ArrivalDetectorF.init 400) esNaN).2 = 1 := by
  refine ⟨?_, ?_, ?_⟩ <;> with_unfolding_all rfl

/-- Appending a record updates `lastTimeOfCat` exactly at its category. -/
theorem lastTimeOfCat_concat (l : List ArrivalData) (r : ArrivalData) (c : String) :
    lastTimeOfCat (l ++ [r]) c =
      if r.entity = c then some r.timeRaw else lastTimeOfCat l c := by
  by_cases hc : r.entity = c
  · simp [lastTimeOfCat, List.filter_append, hc]
  · simp [lastTimeOfCat, List.filter_append, hc]

/-- `logOk` is preserved by appending one record that satisfies the four
obligations relative to the whole log so far. -/
theorem logOk_concat (l : List ArrivalData) :
    ∀ p : List ArrivalData, ∀ r : ArrivalData, logOk p l →
    r.id = (p ++ l).length + 1 →
    r.interArrival = expectedInter (p ++ l) r →
    r.interArrivalStored = pyRound1 r.interArrival →
    r.time = pyRound1 r.timeRaw →
    logOk p (l ++ [r]) := by
  induction l with
  | nil =>
      intro p r _ h1 h2 h3 h4
      simp only [List.append_nil] at h1 h2
      rw [List.nil_append, logOk]
      exact ⟨⟨h1, h2, h3, h4⟩, trivial⟩
  | cons a rest ih =>
      intro p r h h1 h2 h3 h4
      rw [logOk] at h
      rw [List.cons_append, logOk]
      refine ⟨h.1, ih (p ++ [a]) r h.2 ?_ ?_ h3 h4⟩
      · simpa [List.append_assoc] using h1
      · simpa [List.append_assoc] using h2

/-- Every decomposition of a `logOk` log isolates a record satisfying the
four obligations relative to everything before it. -/
theorem logOk_decomp (l1 : List ArrivalData) :
    ∀ (p l : List ArrivalData) (r : ArrivalData) (l2 : List ArrivalData),
    logOk p l → l = l1 ++ r :: l2 →
    r.id = (p ++ l1).length + 1 ∧
    r.interArrival = expectedInter (p ++ l1) r ∧
    r.interArrivalStored = pyRound1 r.interArrival ∧
    r.time = pyRound1 r.timeRaw := by
  induction l1 with
  | nil =>
      intro p l r l2 h hl
      subst hl
      rw [List.nil_append, logOk] at h
      simpa using h.1
  | cons a l1tail ih =>
      intro p l r l2 h hl
      subst hl
      rw [List.cons_append, logOk] at h
      have := ih (p ++ [a]) (l1tail ++ r :: l2) r l2 h.2 rfl
      simpa [List.append_assoc] using this

/-- The identifiers of a `logOk` log count up contiguously from one past
the prefix length. -/
theorem logOk_ids (l : List ArrivalData) :
    ∀ p : List ArrivalData, logOk p l →
    l.map ArrivalData.id = List.range' (p.length + 1) l.length := by
  induction l with
  | nil => intro p _; simp
  | cons r rest ih =>
      intro p h
      rw [logOk] at h
      have hr := h.1.1
      have htail := ih (p ++ [r]) h.2
      simp only [List.map_cons, List.length_cons, List.range'_succ, hr,
        List.cons.injEq, true_and]
      simpa [List.length_append] using htail

/-- `RunInv` only looks at the log and the per-category table. -/
theorem runInv_of_fields (ta tb : TrafficAnalyzer) (ha : tb.arrivals = ta.arrivals)
    (hl : tb.lastArrivalTimes = ta.lastArrivalTimes) (h : RunInv ta) : RunInv tb := by
  unfold RunInv at *
  rw [ha, hl]
  exact h

/-- The common tail of `record_arrival` preserves the run invariant. -/
theorem recordCommon_inv (ta : TrafficAnalyzer) (ent td st : String) (ts : ℚ)
    (h : RunInv ta) : RunInv (ta.recordCommon ent td st ts) := by
  obtain ⟨hlog, htab⟩ := h
  unfold TrafficAnalyzer.recordCommon
  dsimp only
  constructor
  · refine logOk_concat ta.arrivals [] _ hlog (by simp) ?_ rfl rfl
    simp only [List.nil_append, expectedInter, htab ent]
  · intro c
    dsimp only
    rw [lastTimeOfCat_concat]
    dsimp only
    by_cases hc : c = ent
    · simp [hc]
    · simp [hc, Ne.symm hc, htab c]

/-- `record_arrival` preserves the run invariant for every class. -/
theorem recordArrival_inv (ta : TrafficAnalyzer) (trackId : TrackId) (classId : ℕ)
    (bbox : BBox) (ts : ℚ) (h : RunInv ta) :
    RunInv (ta.recordArrival trackId classId bbox ts) := by
  unfold TrafficAnalyzer.recordArrival
  split
  · exact recordCommon_inv _ _ _ _ _ (runInv_of_fields _ _ rfl rfl h)
  · split
    · exact recordCommon_inv _ _ _ _ _ h
    · exact h

/-- `record_arrival` never touches the crossing detector. -/
theorem recordArrival_detector (ta : TrafficAnalyzer) (trackId : TrackId)
    (classId : ℕ) (bbox : BBox) (ts : ℚ) :
    (ta.recordArrival trackId classId bbox ts).arrivalDetector = ta.arrivalDetector := by
  unfold TrafficAnalyzer.recordArrival
  split
  · rfl
  · split
    · rfl
    · rfl

/-- One per-track update preserves the run invariant. -/
theorem processTrackUpdate_inv (ta : TrafficAnalyzer) (e : TrackEvent)
    (h : RunInv ta) : RunInv (ta.processTrackUpdate e) := by
  unfold TrafficAnalyzer.processTrackUpdate
  dsimp only
  split
  · exact recordArrival_inv _ _ _ _ _
      (runInv_of_fields _ _ (by split <;> rfl) (by split <;> rfl) h)
  · exact runInv_of_fields _ _ (by split <;> rfl) (by split <;> rfl) h

/-- A whole run preserves the run invariant. -/
theorem processEvents_inv (es : List TrackEvent) :
    ∀ ta : TrafficAnalyzer, RunInv ta → RunInv (ta.processEvents es) := by
  induction es with
  | nil => intro ta h; exact h
  | cons e rest ih =>
      intro ta h
      exact ih _ (processTrackUpdate_inv ta e h)

/-- A fresh analyzer satisfies the run invariant. -/
theorem runInv_init (fw ly : ℚ) : RunInv (TrafficAnalyzer.init fw ly) :=
  ⟨trivial, fun _ => rfl⟩

/-- C5: over any run from a fresh analyzer, the `ID` values of the emitted
records, in creation order, are exactly 1, 2, …, N with no gaps or
repeats, whatever the classes of the events and however many updates emit
nothing. -/
theorem sequence_ids_contiguous (fw ly : ℚ) (es : List TrackEvent) :
    ((TrafficAnalyzer.init fw ly).processEvents es).arrivals.map ArrivalData.id =
      List.range' 1 ((TrafficAnalyzer.init fw ly).processEvents es).arrivals.length := by
  have h := (processEvents_inv es _ (runInv_init fw ly)).1
  simpa using logOk_ids _ [] h

/-- C3: every emitted record's `inter_arrival` is its firing timestamp
minus the firing timestamp of the most recent earlier record of the same
entity category — 0.0 when no such record exists — so interleaved arrivals
of the other categories never affect it. -/
theorem inter_arrival_same_category (fw ly : ℚ) (es : List TrackEvent)
    (pre : List ArrivalData) (r : ArrivalData) (post : List ArrivalData)
    (h : ((TrafficAnalyzer.init fw ly).processEvents es).arrivals = pre ++ r :: post) :
    r.interArrival = expectedInter pre r := by
  have hlog := (processEvents_inv es _ (runInv_init fw ly)).1
  have hd := logOk_decomp pre [] _ r post hlog h
  simpa using hd.2.1

/-- Witness for C3: in the run `esC3` (EB at t = 10, WB at t = 12, EB at
t = 15.5) the third record's inter-arrival is 15.5 − 10 = 5.5, unaffected
by the interleaved WB arrival. -/
theorem inter_arrival_same_category_witness : r3C3.interArrival = (31 : ℚ)/2 - 10 := by
  have harr : ((TrafficAnalyzer.init 1280 400).processEvents esC3).arrivals =
      [r1C3, r2C3] ++ r3C3 :: [] := by with_unfolding_all rfl
  have h := inter_arrival_same_category 1280 400 esC3 [r1C3, r2C3] r3C3 [] harr
  rw [h]
  with_unfolding_all rfl

/-- C10: every record stores `Inter-Arrival (s)` as `round(t − t_prev, 1)`
computed from the unrounded firing timestamps, and `Time (s)` as
`round(t, 1)` separately; on the run `esC10` (arrivals at t = 0.25 and
t = 0.75) the stored inter-arrival 0.5 differs from the difference
0.8 − 0.2 of the stored rounded times. -/
theorem stored_inter_arrival_rounding :
    (∀ (fw ly : ℚ) (es : List TrackEvent) (pre : List ArrivalData)
        (r : ArrivalData) (post : List ArrivalData),
        ((TrafficAnalyzer.init fw ly).processEvents es).arrivals = pre ++ r :: post →
        r.interArrivalStored = pyRound1 (expectedInter pre r) ∧
        r.time = pyRound1 r.timeRaw) ∧
    ((TrafficAnalyzer.init 1280 400).processEvents esC10).arrivals = [r1C10, r2C10] ∧
    r2C10.interArrivalStored ≠ r2C10.time - r1C10.time := by
  refine ⟨?_, by with_unfolding_all rfl, by with_unfolding_all decide⟩
  intro fw ly es pre r post h
  have hlog := (processEvents_inv es _ (runInv_init fw ly)).1
  have hd := logOk_decomp pre [] _ r post hlog h
  refine ⟨?_, hd.2.2.2⟩
  have h2 : r.interArrival = expectedInter pre r := by simpa using hd.2.1
  rw [hd.2.2.1, h2]

/-- Witness for C10: applying the rounding property to the second record
of the run `esC10`. -/
theorem stored_inter_arrival_rounding_witness :
    r2C10.interArrivalStored = pyRound1 (expectedInter [r1C10] r2C10) ∧
    r2C10.time = pyRound1 r2C10.timeRaw :=
  stored_inter_arrival_rounding.1 1280 400 esC10 [r1C10] r2C10 []
    (by with_unfolding_all rfl)

/-- The ambient per-track update never unsets a recorded track. -/
theorem processTrackUpdate_recorded_mono (ta : TrafficAnalyzer) (e : TrackEvent)
    (j : TrackId) (h : ta.arrivalDetector.recordedArrivals j = true) :
    (ta.processTrackUpdate e).arrivalDetector.recordedArrivals j = true := by
  unfold TrafficAnalyzer.processTrackUpdate
  dsimp only
  have hdet : (if e.classId = 0 then
      { ta with pedestrianAnalyzer :=
          ta.pedestrianAnalyzer.update e.trackId e.bbox e.timestamp }
    else ta).arrivalDetector = ta.arrivalDetector := by split <;> rfl
  split
  · rw [recordArrival_detector]
    exact checkArrival_recorded_mono _ _ _ _ _ (by rw [hdet]; exact h)
  · exact checkArrival_recorded_mono _ _ _ _ _ (by rw [hdet]; exact h)

/-- A whole run never unsets a recorded track. -/
theorem processEvents_recorded_mono (es : List TrackEvent) :
    ∀ (ta : TrafficAnalyzer) (j : TrackId),
    ta.arrivalDetector.recordedArrivals j = true →
    (ta.processEvents es).arrivalDetector.recordedArrivals j = true := by
  induction es with
  | nil => intro ta j h; exact h
  | cons e rest ih =>
      intro ta j h
      exact ih _ j (processTrackUpdate_recorded_mono ta e j h)

/-- A per-track update for an already-recorded track appends nothing. -/
theorem processTrackUpdate_recorded_no_emit (ta : TrafficAnalyzer) (e : TrackEvent)
    (h : ta.arrivalDetector.recordedArrivals e.trackId = true) :
    (ta.processTrackUpdate e).arrivals = ta.arrivals := by
  unfold TrafficAnalyzer.processTrackUpdate
  dsimp only
  have hdet : (if e.classId = 0 then
      { ta with pedestrianAnalyzer :=
          ta.pedestrianAnalyzer.update e.trackId e.bbox e.timestamp }
    else ta).arrivalDetector = ta.arrivalDetector := by split <;> rfl
  rw [hdet, checkArrival_of_recorded _ _ _ _ h]
  split
  · next heq => exact absurd heq (by simp)
  · dsimp only
    split <;> rfl

/-- C9: when a crossing fires for a track whose class is neither person
(0) nor a vehicle class (2, 3, 5, 7), `record_arrival` discards the event
— the log and the per-category last-arrival table are unchanged — yet the
detector has already marked the track recorded, so no later update of the
same track ever appends an arrival. -/
theorem other_class_crossing_discarded (ta : TrafficAnalyzer) (e : TrackEvent)
    (hc : ¬(e.classId = 0 ∨ e.classId = 2 ∨ e.classId = 3 ∨
        e.classId = 5 ∨ e.classId = 7))
    (hf : (ta.arrivalDetector.checkArrival e.trackId e.bbox e.timestamp).1.1 = true) :
    (ta.processTrackUpdate e).arrivals = ta.arrivals ∧
    (ta.processTrackUpdate e).lastArrivalTimes = ta.lastArrivalTimes ∧
    (ta.processTrackUpdate e).arrivalDetector.recordedArrivals e.trackId = true ∧
    ∀ (es : List TrackEvent) (e2 : TrackEvent), e2.trackId = e.trackId →
      (((ta.processTrackUpdate e).processEvents es).processTrackUpdate e2).arrivals =
        ((ta.processTrackUpdate e).processEvents es).arrivals := by
  push_neg at hc
  obtain ⟨h0, h2, h3, h5, h7⟩ := hc
  have hstep : ta.processTrackUpdate e =
      { ta with arrivalDetector :=
          (ta.arrivalDetector.checkArrival e.trackId e.bbox e.timestamp).2 } := by
    unfold TrafficAnalyzer.processTrackUpdate
    dsimp only
    rw [if_neg h0, checkArrival_fired_pair _ _ _ _ hf]
    dsimp only
    unfold TrafficAnalyzer.recordArrival
    rw [if_neg (by simp [h2, h3, h5, h7]), if_neg h0]
  have hrec : (ta.processTrackUpdate e).arrivalDetector.recordedArrivals e.trackId = true := by
    rw [hstep]
    exact checkArrival_fired_recorded _ _ _ _ hf
  refine ⟨by rw [hstep], by rw [hstep], hrec, ?_⟩
  intro es e2 he2
  have hrec2 := processEvents_recorded_mono es _ e.trackId hrec
  rw [← he2] at hrec2
  exact processTrackUpdate_recorded_no_emit _ e2 hrec2

/-- Witness for C9: the detector state `taC9` fires for track 1 on the
unknown class-9 event `evC9`; the log stays empty, the track is marked
recorded, and a later vehicle-class event for track 1 appends nothing. -/
theorem other_class_crossing_discarded_witness :
    (taC9.processTrackUpdate evC9).arrivals = [] ∧
    (taC9.processTrackUpdate evC9).arrivalDetector.recordedArrivals 1 = true ∧
    (((taC9.processTrackUpdate evC9).processEvents esMid).processTrackUpdate
        evLater).arrivals =
      ((taC9.processTrackUpdate evC9).processEvents esMid).arrivals := by
  have h := other_class_crossing_discarded taC9 evC9 (by decide)
    (by with_unfolding_all rfl)
  exact ⟨h.1.trans rfl, h.2.2.1, h.2.2.2 esMid evLater rfl⟩
